import Mathlib

/-!
Verification of the contribution-tier classification and fee-computation
logic of the opencollective-frontend components `AddFundsModal` and
`ContributeTier`, shallowly embedded in Lean 4.

JavaScript numbers that matter here are modelled as a small sum type
`JNum` (finite rational value, NaN, null, undefined) so that the coercion
semantics of `isNaN`, arithmetic and `Math.round` are captured faithfully.
Times are integer timestamps; "now" is passed explicitly.
-/

namespace OC

/-- Model of the JavaScript values a numeric form field can hold:
a finite number (as a rational), `NaN`, `null` or `undefined`. -/
inductive JNum where
  | num (q : ℚ)
  | nan
  | null
  | undef
deriving DecidableEq, Repr

/-- JavaScript `ToNumber` coercion restricted to `JNum`: finite numbers map
to themselves, `null` coerces to `0`, while `NaN` and `undefined` have no
finite value (`none` stands for the floating-point `NaN`). -/
def JNum.toFinite : JNum → Option ℚ
  | .num q => some q
  | .nan => none
  | .null => some 0
  | .undef => none

/-- The global JavaScript `isNaN`: coerces its argument with `ToNumber`
first, so `isNaN(null) = false` (since `Number(null)` is `0`) while
`isNaN(undefined) = true`. -/
def jsIsNaN : JNum → Bool
  | .num _ => false
  | .nan => true
  | .null => false
  | .undef => true

/-- JavaScript multiplication on `JNum`: any NaN-valued operand yields NaN,
`null` behaves as `0`. -/
def jsMul (a b : JNum) : JNum :=
  match a.toFinite, b.toFinite with
  | some x, some y => .num (x * y)
  | _, _ => .nan

/-- JavaScript subtraction on `JNum`. -/
def jsSub (a b : JNum) : JNum :=
  match a.toFinite, b.toFinite with
  | some x, some y => .num (x - y)
  | _, _ => .nan

/-- Division by the literal `100`, as in `hostFeePercent / 100`. -/
def jsDiv100 (a : JNum) : JNum :=
  match a.toFinite with
  | some x => .num (x / 100)
  | none => .nan

/-- `Math.round` on a finite value: rounds half-way cases toward positive
infinity, i.e. `⌊x + 1/2⌋` (written with `Rat.num`/`Rat.den`, which is the
same integer by `Rat.floor_def`, so that concrete instances evaluate). -/
def jround (q : ℚ) : ℤ := (q + 1 / 2).num / ((q + 1 / 2).den : ℤ)

/-- `Math.round` on `JNum`: NaN propagates, `null` coerces to `0`. -/
def jsRound (a : JNum) : JNum :=
  match a.toFinite with
  | some x => .num ((jround x : ℤ) : ℚ)
  | none => .nan

/-- Result record of the fee computation displayed by `AddFundsModal`. -/
structure FeeSplit where
  hostFee : JNum
  platformFee : JNum
  netAmount : JNum
deriving DecidableEq, Repr

/-- The fee computation of the `AddFundsModal` render body:

    const hostFeePercent = isNaN(values.hostFeePercent) ? defaultHostFeePercent : values.hostFeePercent;
    const platformFeePercent = isNaN(values.platformFeePercent) ? 0 : values.platformFeePercent;
    const hostFee = Math.round(values.amount * (hostFeePercent / 100));
    const platformFee = Math.round(values.amount * (platformFeePercent / 100));

together with the net amount `values.amount - hostFee - platformFee`
rendered in the last `AmountDetailsLine`. -/
def computeSplit (amount hostFeePercentIn platformFeePercentIn defaultHostFeePercent : JNum) :
    FeeSplit :=
  let hostFeePercent := if jsIsNaN hostFeePercentIn then defaultHostFeePercent else hostFeePercentIn
  let platformFeePercent := if jsIsNaN platformFeePercentIn then JNum.num 0 else platformFeePercentIn
  let hostFee := jsRound (jsMul amount (jsDiv100 hostFeePercent))
  let platformFee := jsRound (jsMul amount (jsDiv100 platformFeePercent))
  { hostFee := hostFee
    platformFee := platformFee
    netAmount := jsSub (jsSub amount hostFee) platformFee }

/-- The contribution categories of `lib/constants/contribution-types`. -/
inductive ContributionTypes where
  | TIER_PASSED
  | FINANCIAL_GOAL
  | PRODUCT
  | TICKET
  | MEMBERSHIP
  | FINANCIAL_RECURRING
  | FINANCIAL_ONE_TIME
deriving DecidableEq, Repr

/-- JavaScript truthiness of an optional numeric field (`tier.goal ?`):
`null`/`undefined` and `0` are falsy. -/
def jsTruthyNum : Option ℚ → Bool
  | none => false
  | some q => q != 0

/-- JavaScript truthiness of an optional string field (`tier.interval ?`):
`null`/`undefined` and the empty string are falsy. -/
def jsTruthyStr : Option String → Bool
  | none => false
  | some s => s != ""

/-- The derived `stats` of a tier used by `ContributeTier`. -/
structure TierStats where
  availableQuantity : Option ℤ
deriving DecidableEq, Repr

/-- The tier fields consulted by the classification, disabling and routing
logic of `ContributeTier`. -/
structure Tier where
  id : ℤ
  slug : String
  type : Option String
  goal : Option ℚ
  interval : Option String
  endsAt : Option ℤ
  stats : TierStats
deriving DecidableEq, Repr

/-- A parent collective only contributes its slug here. -/
structure ParentCollective where
  slug : String
deriving DecidableEq, Repr

/-- The collective fields consulted by `ContributeTier`. -/
structure Collective where
  slug : String
  isActive : Bool
  endsAt : Option ℤ
  parentCollective : Option ParentCollective
deriving DecidableEq, Repr

/-- Direct translation of `getContributionTypeFromTier` from
`src/components/contribute-cards/ContributeTier.js`: a first-match-wins
chain over `isPassed`, `tier.goal`, `tier.type` and `tier.interval`. -/
def getContributionTypeFromTier (tier : Tier) (isPassed : Bool) : ContributionTypes :=
  if isPassed then ContributionTypes.TIER_PASSED
  else if jsTruthyNum tier.goal then ContributionTypes.FINANCIAL_GOAL
  else if tier.type == some "PRODUCT" then ContributionTypes.PRODUCT
  else if tier.type == some "TICKET" then ContributionTypes.TICKET
  else if tier.type == some "MEMBERSHIP" then ContributionTypes.MEMBERSHIP
  else if jsTruthyStr tier.interval then ContributionTypes.FINANCIAL_RECURRING
  else ContributionTypes.FINANCIAL_ONE_TIME

/-- Modelled from the spec: `isTierExpired` lives in `lib/tier-utils`, which
is not under src. The spec says a tier is expired when its end date, if
present, is in the past. The call site `isTierExpired(tier)` passes only
the tier, so only the tier's own end date can be consulted here. -/
def isTierExpired (now : ℤ) (tier : Tier) : Bool :=
  match tier.endsAt with
  | some e => e < now
  | none => false

/-- Modelled from the spec: `isPastEvent` lives in `lib/events`, which is
not under src. The spec says a collective is a past event when its own end
date (present only for event-type collectives) is in the past. -/
def isPastEvent (now : ℤ) (c : Collective) : Bool :=
  match c.endsAt with
  | some e => e < now
  | none => false

/-- The category computed by `ContributeTier`:
`getContributionTypeFromTier(tier, isTierExpired(tier))`. -/
def classify (now : ℤ) (tier : Tier) : ContributionTypes :=
  getContributionTypeFromTier tier (isTierExpired now tier)

/-- `tier.stats.availableQuantity === 0`: strict equality, so `null` and
`undefined` (here `none`) do not count as zero. -/
def hasNoneLeft (tier : Tier) : Bool :=
  tier.stats.availableQuantity == some 0

/-- `collective.isActive && !isPastEvent(collective)`. -/
def canContributeToCollective (now : ℤ) (c : Collective) : Bool :=
  c.isActive && !(isPastEvent now c)

/-- `!canContributeToCollective || tierIsExpired || hasNoneLeft`. -/
def isDisabled (now : ℤ) (tier : Tier) (c : Collective) : Bool :=
  !(canContributeToCollective now c) || isTierExpired now tier || hasNoneLeft tier

/-- The routing parameter records built by `ContributeTier`; fields unused
by a branch are `none`. -/
structure RouteParams where
  collectiveSlug : String
  verb : String
  eventSlug : Option String
  tierSlug : Option String
  tierId : ℤ
deriving DecidableEq, Repr

/-- The route-selection logic of `ContributeTier`: the TICKET category uses
the event-scoped route (reading `collective.parentCollective.slug`, which
throws when the parent is absent, modelled as `none`); every other category
uses the collective-scoped route. -/
def tierRoute (tierType : ContributionTypes) (tier : Tier) (c : Collective) :
    Option (String × RouteParams) :=
  if tierType == ContributionTypes.TICKET then
    match c.parentCollective with
    | some parent =>
        some ("orderEventTier",
          { collectiveSlug := parent.slug
            verb := "events"
            eventSlug := some c.slug
            tierSlug := none
            tierId := tier.id })
    | none => none
  else
    some ("orderCollectiveTierNew",
      { collectiveSlug := c.slug
        verb := "contribute"
        eventSlug := none
        tierSlug := some tier.slug
        tierId := tier.id })

/-- A JavaScript account identifier: an opaque string (API V2) or a legacy
numeric id (API V1); `undef` models an absent field. -/
inductive JSId where
  | str (s : String)
  | intId (n : ℤ)
  | undef
deriving DecidableEq, Repr

/-- An account as picked in the form; only its `id` matters here. -/
structure AccountInput where
  id : JSId
deriving DecidableEq, Repr

/-- The normalized account reference submitted with the mutation; the code
builds an object with exactly one of the two fields. -/
structure AccountReference where
  id : Option String
  legacyId : Option JSId
deriving DecidableEq, Repr

/-- Direct translation of `buildAccountReference`:
`typeof input.id === 'string' ? { id: input.id } : { legacyId: input.id }`. -/
def buildAccountReference (input : AccountInput) : AccountReference :=
  match input.id with
  | JSId.str s => { id := some s, legacyId := none }
  | v => { id := none, legacyId := some v }

/-- The required-field keys checked by the add-funds form. -/
inductive FormField where
  | amount
  | fromAccount
  | description
deriving DecidableEq, Repr

/-- The Formik form state of `AddFundsModal` (the fields the verified logic
reads). -/
structure FormValues where
  amount : Option ℤ
  hostFeePercent : JNum
  platformFeePercent : JNum
  description : String
  fromAccount : Option AccountInput
  account : AccountInput
deriving DecidableEq, Repr

/-- Modelled from the spec: `requireFields` lives in `lib/form-utils`,
which is not under src. The spec says validation requires amount present
and non-null, source-account present, and description non-empty, and that
a missing field yields a field-keyed error marker; the error set is
modelled as the list of marked field keys. `validate` in src is
`requireFields(values, ['amount', 'fromAccount', 'description'])`. -/
def validate (v : FormValues) : List FormField :=
  (if v.amount.isNone then [FormField.amount] else []) ++
  (if v.fromAccount.isNone then [FormField.fromAccount] else []) ++
  (if v.description == "" then [FormField.description] else [])

/-- The submit button's disabling condition `!dirty || !isValid`, where
Formik's `isValid` holds exactly when `validate` returned no errors. -/
def submitDisabled (dirty : Bool) (v : FormValues) : Bool :=
  !dirty || !(validate v).isEmpty

/-- The initial form values built by `getInitialValues` at the one call
site of `AddFundsModal`: defaults `amount: null`, `platformFeePercent: 0`,
`description: ''`, `fromAccount: null`, overridden with the collective's
default host fee percent and the collective as target account. -/
def getInitialValues (hostFeePercent : JNum) (account : AccountInput) : FormValues :=
  { amount := none
    hostFeePercent := hostFeePercent
    platformFeePercent := JNum.num 0
    description := ""
    fromAccount := none
    account := account }

/-- The logged-in user as far as this component consults it. -/
structure LoggedInUserT where
  isRoot : Bool
deriving DecidableEq, Repr

/-- What the modal renders when it renders at all: the constructed form
state (further rendering is outside the verified core). -/
structure ModalRender where
  initialValues : FormValues
deriving DecidableEq, Repr

/-- The top of the `AddFundsModal` component: `if (!LoggedInUser) return
null;` precedes the construction of the form, so with no logged-in user
the result is `none` and no form state is built. -/
def AddFundsModal (loggedInUser : Option LoggedInUserT) (defaultHostFeePercent : JNum)
    (account : AccountInput) : Option ModalRender :=
  match loggedInUser with
  | none => none
  | some _ => some { initialValues := getInitialValues defaultHostFeePercent account }

/-- Sample tier with no own end date, no goal, type PRODUCT. -/
def productTierNoEnd : Tier :=
  { id := 1
    slug := "gold"
    type := some "PRODUCT"
    goal := none
    interval := none
    endsAt := none
    stats := { availableQuantity := none } }

/-- Sample event collective whose end date (0) is in the past at time 10. -/
def endedEventCollective : Collective :=
  { slug := "conf2020"
    isActive := true
    endsAt := some 0
    parentCollective := some { slug := "parent-org" } }

/-- Sample tier with a goal explicitly set to 0 and type PRODUCT. -/
def zeroGoalProductTier : Tier :=
  { id := 2
    slug := "zero-goal"
    type := some "PRODUCT"
    goal := some 0
    interval := none
    endsAt := none
    stats := { availableQuantity := none } }

end OC

namespace OC

theorem jround_eq_floor (q : ℚ) : jround q = Int.floor (q + 1 / 2) :=
  (Rat.floor_def (q := q + 1 / 2)).symm

theorem jround_nearest (q : ℚ) : |((jround q : ℤ) : ℚ) - q| ≤ 1 / 2 := by
  rw [jround_eq_floor]
  have h1 : ((Int.floor (q + 1 / 2) : ℤ) : ℚ) ≤ q + 1 / 2 := Int.floor_le (q + 1 / 2)
  have h2 : q + 1 / 2 - 1 < ((Int.floor (q + 1 / 2) : ℤ) : ℚ) := Int.sub_one_lt_floor (q + 1 / 2)
  rw [abs_le]
  constructor <;> linarith

/-- C1: on numeric inputs the fee split computes `hostFee` and
`platformFee` by rounding `amount * percent/100` to an integer that is
nearest (within 1/2) to the exact product, and `netAmount` is
`amount - hostFee - platformFee`; in particular
`computeSplit(1000, 10, 5)` yields hostFee 100, platformFee 50,
netAmount 850. -/
theorem computeSplit_numeric_spec (a h p d : ℚ) :
    computeSplit (.num a) (.num h) (.num p) (.num d) =
      { hostFee := .num ((jround (a * (h / 100)) : ℤ) : ℚ)
        platformFee := .num ((jround (a * (p / 100)) : ℤ) : ℚ)
        netAmount := .num (a - ((jround (a * (h / 100)) : ℤ) : ℚ)
          - ((jround (a * (p / 100)) : ℤ) : ℚ)) }
    ∧ |((jround (a * (h / 100)) : ℤ) : ℚ) - a * (h / 100)| ≤ 1 / 2
    ∧ |((jround (a * (p / 100)) : ℤ) : ℚ) - a * (p / 100)| ≤ 1 / 2
    ∧ computeSplit (.num 1000) (.num 10) (.num 5) (.num d) =
      { hostFee := .num 100, platformFee := .num 50, netAmount := .num 850 } := by
  refine ⟨?_, jround_nearest _, jround_nearest _, ?_⟩
  · simp [computeSplit, jsIsNaN, jsMul, jsDiv100, jsRound, jsSub, JNum.toFinite]
  · simp only [computeSplit, jsIsNaN, jsMul, jsDiv100, jsRound, jsSub, jround, JNum.toFinite]
    norm_num

end OC

namespace OC

/-- C2 counterexample: a tier with no own end date belonging to an
event collective whose end date has passed is not classified PASSED: the
classifier consults only the tier's own end date, so this PRODUCT tier is
classified PRODUCT even though the event is past. -/
theorem past_event_not_passed_counterexample :
    isPastEvent 10 endedEventCollective = true
    ∧ endedEventCollective.endsAt = some 0
    ∧ productTierNoEnd.endsAt = none
    ∧ classify 10 productTierNoEnd = ContributionTypes.PRODUCT
    ∧ ContributionTypes.PRODUCT ≠ ContributionTypes.TIER_PASSED := by
  refine ⟨rfl, rfl, rfl, ?_, by decide⟩
  simp [classify, isTierExpired, getContributionTypeFromTier, productTierNoEnd,
    jsTruthyNum, jsTruthyStr]

/-- C2 (amended): for every tier whose own end date is in the past, the
classifier assigns category PASSED regardless of all other tier fields. -/
theorem tier_past_own_end_date_passed (now e : ℤ) (tier : Tier)
    (h1 : tier.endsAt = some e) (h2 : e < now) :
    classify now tier = ContributionTypes.TIER_PASSED := by
  have hexp : isTierExpired now tier = true := by
    simp [isTierExpired, h1]
    exact h2
  simp [classify, hexp, getContributionTypeFromTier]

/-- C2 witness: a tier that ended at time 5 is PASSED at time 10, even with
a goal, a PRODUCT type and an interval set. -/
theorem tier_past_own_end_date_passed_witness :
    classify 10
      { id := 3, slug := "old", type := some "PRODUCT", goal := some 100,
        interval := some "month", endsAt := some 5,
        stats := { availableQuantity := some 7 } } = ContributionTypes.TIER_PASSED :=
  tier_past_own_end_date_passed 10 5 _ rfl (by decide)

/-- C3: contribution is disabled exactly when the collective is inactive,
or it is a past event, or the tier is expired, or the available quantity
equals exactly zero; an absent available quantity together with an active
collective and a non-expired tier leaves the card enabled. -/
theorem isDisabled_characterization (now : ℤ) (tier : Tier) (c : Collective) :
    (isDisabled now tier c = true ↔
      (c.isActive = false ∨ isPastEvent now c = true ∨ isTierExpired now tier = true ∨
        tier.stats.availableQuantity = some 0))
    ∧ (c.isActive = true → isPastEvent now c = false → isTierExpired now tier = false →
        tier.stats.availableQuantity = none → isDisabled now tier c = false) := by
  constructor
  · cases hA : c.isActive <;> cases hP : isPastEvent now c <;>
      cases hE : isTierExpired now tier <;>
      simp [isDisabled, canContributeToCollective, hasNoneLeft, hA, hP, hE]
  · intro hA hP hE hQ
    simp [isDisabled, canContributeToCollective, hasNoneLeft, hA, hP, hE, hQ]

/-- C3 witness: an active, non-event collective with a non-expired tier of
absent available quantity is not disabled. -/
theorem isDisabled_characterization_witness :
    isDisabled 10 productTierNoEnd
      { slug := "open", isActive := true, endsAt := none, parentCollective := none } = false :=
  (isDisabled_characterization 10 productTierNoEnd
    { slug := "open", isActive := true, endsAt := none, parentCollective := none }).2
    rfl rfl rfl rfl

/-- C4 counterexample: `null` is a non-numeric hostFeePercent, but
`isNaN(null)` is false, so it is not replaced by the default rate 15: the
host fee is 0, not 150. -/
theorem null_hostFeePercent_counterexample :
    jsIsNaN JNum.null = false
    ∧ (computeSplit (.num 1000) JNum.null (.num 0) (.num 15)).hostFee = JNum.num 0
    ∧ (computeSplit (.num 1000) (.num 15) (.num 0) (.num 15)).hostFee = JNum.num 150
    ∧ (JNum.num 0 : JNum) ≠ JNum.num 150 := by
  refine ⟨rfl, ?_, ?_, ?_⟩
  · simp only [computeSplit, jsIsNaN, jsMul, jsDiv100, jsRound, jsSub, jround, JNum.toFinite]
    norm_num
  · simp only [computeSplit, jsIsNaN, jsMul, jsDiv100, jsRound, jsSub, jround, JNum.toFinite]
    norm_num
  · intro hEq
    exact absurd (JNum.num.inj hEq) (by norm_num)

/-- C4 (amended): a fee percent for which JavaScript `isNaN` is true (NaN
or undefined — but not null, which coerces to 0) is replaced by the
default host rate resp. by 0; in particular
`computeSplit(1000, NaN, NaN)` with default 15 yields hostFee 150,
platformFee 0, netAmount 850. -/
theorem isNaN_percent_replacement (a d : ℚ) :
    computeSplit (.num a) JNum.nan JNum.nan (.num d) =
      computeSplit (.num a) (.num d) (.num 0) (.num d)
    ∧ computeSplit (.num a) JNum.undef JNum.undef (.num d) =
      computeSplit (.num a) (.num d) (.num 0) (.num d)
    ∧ computeSplit (.num 1000) JNum.nan JNum.nan (.num 15) =
      { hostFee := .num 150, platformFee := .num 0, netAmount := .num 850 } := by
  refine ⟨rfl, rfl, ?_⟩
  simp only [computeSplit, jsIsNaN, jsMul, jsDiv100, jsRound, jsSub, jround, JNum.toFinite]
  norm_num

/-- C5: validation marks exactly the missing fields among amount,
fromAccount and description; any error marker forces the submit button to
be disabled; the state with amount 500, no source account and description
"x" yields exactly one error, keyed to fromAccount. -/
theorem validate_spec (v : FormValues) :
    (FormField.amount ∈ validate v ↔ v.amount = none)
    ∧ (FormField.fromAccount ∈ validate v ↔ v.fromAccount = none)
    ∧ (FormField.description ∈ validate v ↔ v.description = "")
    ∧ (validate v ≠ [] → ∀ dirty : Bool, submitDisabled dirty v = true)
    ∧ validate
        { amount := some 500, fromAccount := none, description := "x",
          hostFeePercent := JNum.num 0, platformFeePercent := JNum.num 0,
          account := { id := JSId.intId 1 } } = [FormField.fromAccount] := by
  obtain ⟨am, hfp, pfp, desc, fa, acc⟩ := v
  refine ⟨?_, ?_, ?_, ?_, by decide⟩ <;>
    cases am <;> cases fa <;> by_cases hd : desc = "" <;>
      simp [validate, submitDisabled, hd]

/-- C5 witness: with the source account missing, submission is disabled
even when the form is dirty. -/
theorem validate_spec_witness :
    submitDisabled true
      { amount := some 500, fromAccount := none, description := "x",
        hostFeePercent := JNum.num 0, platformFeePercent := JNum.num 0,
        account := { id := JSId.intId 1 } } = true :=
  (validate_spec
    { amount := some 500, fromAccount := none, description := "x",
      hostFeePercent := JNum.num 0, platformFeePercent := JNum.num 0,
      account := { id := JSId.intId 1 } }).2.2.2.1 (by decide) true

/-- C6 counterexample: a non-expired PRODUCT tier whose goal is set to 0 is
classified PRODUCT, not FINANCIAL_GOAL: `tier.goal` is tested for
JavaScript truthiness and 0 is falsy. -/
theorem zero_goal_counterexample :
    zeroGoalProductTier.goal = some 0
    ∧ isTierExpired 10 zeroGoalProductTier = false
    ∧ classify 10 zeroGoalProductTier = ContributionTypes.PRODUCT
    ∧ ContributionTypes.PRODUCT ≠ ContributionTypes.FINANCIAL_GOAL := by
  refine ⟨rfl, rfl, ?_, by decide⟩
  simp [classify, isTierExpired, getContributionTypeFromTier, zeroGoalProductTier,
    jsTruthyNum, jsTruthyStr]

/-- C6 (amended): for every non-expired tier whose goal is set to a
non-zero value, the classifier assigns FINANCIAL_GOAL even when the type
is PRODUCT, TICKET or MEMBERSHIP: the goal check precedes the type
checks. -/
theorem nonzero_goal_financial_goal (now : ℤ) (tier : Tier) (g : ℚ)
    (h1 : isTierExpired now tier = false) (h2 : tier.goal = some g) (h3 : g ≠ 0) :
    classify now tier = ContributionTypes.FINANCIAL_GOAL := by
  simp [classify, h1, getContributionTypeFromTier, jsTruthyNum, h2, h3]

/-- C6 witness: a PRODUCT tier with goal 100 and no end date is classified
FINANCIAL_GOAL. -/
theorem nonzero_goal_financial_goal_witness :
    classify 10
      { id := 4, slug := "goalx", type := some "PRODUCT", goal := some 100,
        interval := none, endsAt := none, stats := { availableQuantity := none } }
      = ContributionTypes.FINANCIAL_GOAL :=
  nonzero_goal_financial_goal 10 _ 100 rfl rfl (by norm_num)

/-- C7: a TICKET tier routes to the event-scoped path carrying the parent
collective's slug, the event collective's slug and the tier id; every
other category routes to the collective-scoped path carrying the
collective's slug, the tier's slug and the tier id; in both cases the
parameters equal the inputs. -/
theorem tierRoute_round_trip (ty : ContributionTypes) (tier : Tier) (c : Collective)
    (parent : ParentCollective) :
    (ty = ContributionTypes.TICKET → c.parentCollective = some parent →
      tierRoute ty tier c = some ("orderEventTier",
        { collectiveSlug := parent.slug, verb := "events", eventSlug := some c.slug,
          tierSlug := none, tierId := tier.id }))
    ∧ (ty ≠ ContributionTypes.TICKET →
      tierRoute ty tier c = some ("orderCollectiveTierNew",
        { collectiveSlug := c.slug, verb := "contribute", eventSlug := none,
          tierSlug := some tier.slug, tierId := tier.id })) := by
  constructor
  · intro hty hp
    subst hty
    simp [tierRoute, hp]
  · intro hty
    simp [tierRoute, hty]

/-- C7 witness: concrete TICKET and PRODUCT routings of the sample tier
and event collective reproduce the input slugs and tier id. -/
theorem tierRoute_round_trip_witness :
    tierRoute ContributionTypes.TICKET productTierNoEnd endedEventCollective =
      some ("orderEventTier",
        { collectiveSlug := "parent-org", verb := "events", eventSlug := some "conf2020",
          tierSlug := none, tierId := 1 })
    ∧ tierRoute ContributionTypes.PRODUCT productTierNoEnd endedEventCollective =
      some ("orderCollectiveTierNew",
        { collectiveSlug := "conf2020", verb := "contribute", eventSlug := none,
          tierSlug := some "gold", tierId := 1 }) :=
  ⟨(tierRoute_round_trip ContributionTypes.TICKET productTierNoEnd endedEventCollective
      { slug := "parent-org" }).1 rfl rfl,
   (tierRoute_round_trip ContributionTypes.PRODUCT productTierNoEnd endedEventCollective
      { slug := "parent-org" }).2 (by decide)⟩

/-- C8 counterexample: with amount 10 and fees 60% and 41% (sum 101% >
100%) the net amount is exactly 0, not negative: rounding absorbs the
excess on small amounts. -/
theorem fees_over_100_not_negative_counterexample :
    (100 : ℚ) < 60 + 41
    ∧ (computeSplit (.num 10) (.num 60) (.num 41) (.num 0)).netAmount = JNum.num 0
    ∧ ¬ (∃ q : ℚ,
          (computeSplit (.num 10) (.num 60) (.num 41) (.num 0)).netAmount = JNum.num q
          ∧ q < 0) := by
  have hnet : (computeSplit (.num 10) (.num 60) (.num 41) (.num 0)).netAmount = JNum.num 0 := by
    simp only [computeSplit, jsIsNaN, jsMul, jsDiv100, jsRound, jsSub, jround, JNum.toFinite]
    norm_num
  refine ⟨by norm_num, hnet, ?_⟩
  rintro ⟨q, hq, hlt⟩
  rw [hnet] at hq
  have h0 : (0 : ℚ) = q := JNum.num.inj hq
  rw [← h0] at hlt
  exact absurd hlt (lt_irrefl 0)

/-- C8 (amended): when the fee percentages sum to more than 100% the
calculator still produces a finite net amount equal to
amount − hostFee − platformFee (it never fails); the net amount can be
negative — for amount 1000 and fees 60% and 50% it is −100 — but rounding
can leave it at zero for small amounts, so no sign invariant holds or is
enforced. -/
theorem computeSplit_total_net_may_be_negative (a h p d : ℚ) (hsum : 100 < h + p) :
    (computeSplit (.num a) (.num h) (.num p) (.num d)).netAmount =
      JNum.num (a - ((jround (a * (h / 100)) : ℤ) : ℚ) - ((jround (a * (p / 100)) : ℤ) : ℚ))
    ∧ (∃ q : ℚ,
        (computeSplit (.num 1000) (.num 60) (.num 50) (.num d)).netAmount = JNum.num q
        ∧ q < 0) := by
  constructor
  · simp [computeSplit, jsIsNaN, jsMul, jsDiv100, jsRound, jsSub, JNum.toFinite]
  · refine ⟨-100, ?_, by norm_num⟩
    simp only [computeSplit, jsIsNaN, jsMul, jsDiv100, jsRound, jsSub, jround, JNum.toFinite]
    norm_num

/-- C8 witness: at amount 1000 with fees 60% and 50% (sum over 100%) the
net amount exists, is finite and negative. -/
theorem computeSplit_total_net_may_be_negative_witness :
    ∃ q : ℚ,
      (computeSplit (.num 1000) (.num 60) (.num 50) (.num 0)).netAmount = JNum.num q
      ∧ q < 0 :=
  (computeSplit_total_net_may_be_negative 1000 60 50 0 (by norm_num)).2

/-- C9: the account reference is normalized to exactly one of two shapes:
`{id}` when the account's id is a string, `{legacyId}` otherwise, and it
never carries both fields. -/
theorem buildAccountReference_spec (input : AccountInput) :
    (∀ s, input.id = JSId.str s →
      buildAccountReference input = { id := some s, legacyId := none })
    ∧ ((∀ s, input.id ≠ JSId.str s) →
      buildAccountReference input = { id := none, legacyId := some input.id })
    ∧ ¬ ((buildAccountReference input).id.isSome = true ∧
        (buildAccountReference input).legacyId.isSome = true) := by
  obtain ⟨iid⟩ := input
  cases iid with
  | str s =>
    refine ⟨?_, ?_, ?_⟩
    · intro s' hs
      injection hs with hss
      subst hss
      rfl
    · intro hall
      exact absurd rfl (hall s)
    · rintro ⟨-, h2⟩
      simp [buildAccountReference] at h2
  | intId n =>
    refine ⟨?_, fun _ => rfl, ?_⟩
    · intro s' hs
      exact (nomatch hs)
    · rintro ⟨h1, -⟩
      simp [buildAccountReference] at h1
  | undef =>
    refine ⟨?_, fun _ => rfl, ?_⟩
    · intro s' hs
      exact (nomatch hs)
    · rintro ⟨h1, -⟩
      simp [buildAccountReference] at h1

/-- C9 witness: a string id normalizes to the `{id}` shape and a legacy
numeric id to the `{legacyId}` shape. -/
theorem buildAccountReference_spec_witness :
    buildAccountReference { id := JSId.str "acct-v2" } =
      { id := some "acct-v2", legacyId := none }
    ∧ buildAccountReference { id := JSId.intId 42 } =
      { id := none, legacyId := some (JSId.intId 42) } :=
  ⟨(buildAccountReference_spec { id := JSId.str "acct-v2" }).1 "acct-v2" rfl,
   (buildAccountReference_spec { id := JSId.intId 42 }).2.1 (fun _ hs => nomatch hs)⟩

/-- C10: with no logged-in user the add-funds modal returns null before
any form state is constructed; with a logged-in user it constructs the
initial form state. -/
theorem addFundsModal_requires_login (d : JNum) (account : AccountInput) (u : LoggedInUserT) :
    AddFundsModal none d account = none
    ∧ AddFundsModal (some u) d account =
        some { initialValues := getInitialValues d account } :=
  ⟨rfl, rfl⟩

end OC
